import Mathlib

/-!
Verification of the static file server in `web_server.py`.

The repository consists of a single ~29-line Python script: a subclass of
`http.server.SimpleHTTPRequestHandler` overriding only `log_message`, plus a
`__main__` block that changes directory to the serving root, constructs an
`HTTPServer`, and runs `serve_forever` until `KeyboardInterrupt`.

The request-handling behaviour (path resolution, file serving, directory
listings) is delegated to the Python standard library, whose code is not part
of this repository; those parts are modelled from the specification, as
indicated by `Modelled from the spec:` doc comments. The `log_message`
override and the `__main__` block are embedded directly from the source.
-/

namespace WebServer

/-- A filesystem entry: either a regular file with its byte contents, or a
directory with named children. -/
inductive Entry where
  | file (bytes : List Nat)
  | dir (children : List (String × Entry))

/-- Look up a path (list of name components) inside a filesystem entry. -/
def Entry.lookup : Entry → List String → Option Entry
  | e, [] => some e
  | Entry.dir cs, n :: rest =>
      match cs.lookup n with
      | some c => Entry.lookup c rest
      | none => none
  | Entry.file _, _ :: _ => none

/-- Modelled from the spec: "Resolve the request path against the serving
root. Must reject (fail with a 4xx response) any resolved path that escapes
the root via traversal sequences."  The resolving code itself
(`SimpleHTTPRequestHandler.translate_path`) is standard-library code absent
from this repository.  Components are processed left to right; empty
components and `.` are skipped, `..` pops the last accepted component, and a
`..` with nothing left to pop means the path escapes the root: `none`. -/
def resolveAux : List String → List String → Option (List String)
  | acc, [] => some acc.reverse
  | acc, c :: rest =>
      if c = "" ∨ c = "." then resolveAux acc rest
      else if c = ".." then
        match acc with
        | [] => none
        | _ :: acc2 => resolveAux acc2 rest
      else resolveAux (c :: acc) rest

/-- Modelled from the spec: path resolution entry point (see `resolveAux`). -/
def resolve (comps : List String) : Option (List String) :=
  resolveAux [] comps

/-- An HTTP request: method, path split at slashes into components, and
protocol version.  A trailing slash in the raw path shows up as a final
empty component. -/
structure Request where
  method : String
  path : List String
  version : String
deriving DecidableEq

/-- An HTTP response: status code and body bytes. -/
structure Response where
  status : Nat
  body : List Nat
deriving DecidableEq

/-- The bytes of a string (its characters as code points). -/
def strBytes (s : String) : List Nat :=
  s.data.map Char.toNat

/-- Modelled from the spec: the items of the auto-generated HTML index,
one list item per directory entry name. -/
def listingItems : List String → List Nat
  | [] => []
  | n :: rest => strBytes "<li>" ++ strBytes n ++ strBytes "</li>" ++ listingItems rest

/-- Modelled from the spec: "respond with an auto-generated HTML index
listing directory entries" — the generated listing body for the given child
names.  The generating code (`SimpleHTTPRequestHandler.list_directory`) is
standard-library code absent from this repository. -/
def listingBytes (names : List String) : List Nat :=
  strBytes "<html><body><ul>" ++ listingItems names ++ strBytes "</ul></body></html>"

/-- Modelled from the spec: the request-handling contract of section 4.1.
The handling code (`SimpleHTTPRequestHandler.do_GET`/`send_head`) is
standard-library code absent from this repository.  Steps: resolve the path,
rejecting escapes with 403 ("standard status codes ... 403 (for traversal
attempts)"); a missing path gets 404 with a simple error body; a regular
file is served with 200 and its exact bytes; a directory serves its
`index.html` if present, else the generated listing. -/
def handle (fs : Entry) (rootPath : List String) (req : Request) : Response :=
  match resolve req.path with
  | none => { status := 403, body := strBytes "403 Forbidden" }
  | some rel =>
      match fs.lookup rootPath with
      | none => { status := 404, body := strBytes "404 Not Found" }
      | some root =>
          match root.lookup rel with
          | none => { status := 404, body := strBytes "404 Not Found" }
          | some (Entry.file bs) => { status := 200, body := bs }
          | some (Entry.dir cs) =>
              match cs.lookup "index.html" with
              | some (Entry.file bs) => { status := 200, body := bs }
              | _ => { status := 200, body := listingBytes (cs.map Prod.fst) }

/-- An observable action on standard output or the server socket. -/
inductive OutEvent where
  | chdir (path : String)
  | bind (addr : String) (port : Nat)
  | print (s : String)
  | flush
  | serveForever
  | serverClose
deriving DecidableEq

/-- The decimal digit character for `n % 10`. -/
def digitChar (n : Nat) : Char :=
  match n % 10 with
  | 0 => '0' | 1 => '1' | 2 => '2' | 3 => '3' | 4 => '4'
  | 5 => '5' | 6 => '6' | 7 => '7' | 8 => '8' | _ => '9'

/-- Modelled from the spec: two-digit zero-padded decimal rendering (the
`%02d` fields of the conventional log timestamp). Faithful for values below
100, which covers day, hour, minute and second. -/
def pad2 (n : Nat) : List Char :=
  [digitChar (n / 10), digitChar n]

/-- Modelled from the spec: four-digit zero-padded decimal rendering (the
`%04d` year field). Faithful for values below 10000. -/
def pad4 (n : Nat) : List Char :=
  [digitChar (n / 1000), digitChar (n / 100), digitChar (n / 10), digitChar n]

/-- The conventional three-letter English month abbreviations, indexed 1-12. -/
def monthName (m : Nat) : List Char :=
  (["Jan", "Feb", "Mar", "Apr", "May", "Jun",
    "Jul", "Aug", "Sep", "Oct", "Nov", "Dec"].getD (m - 1) "Jan").data

/-- Modelled from the spec: the "conventional HTTP access-log date format
(e.g. `25/Dec/2023 14:30:00`)" produced by the inherited
`log_date_time_string`, whose code is standard-library code absent from this
repository: `day/Mon/year hour:minute:second`. -/
def logDateTimeString (day mon year hh mi ss : Nat) : List Char :=
  pad2 day ++ ['/'] ++ monthName mon ++ ['/'] ++ pad4 year ++ [' '] ++
  pad2 hh ++ [':'] ++ pad2 mi ++ [':'] ++ pad2 ss

/-- The `log_message` override from `web_server.py`: one
`sys.stdout.write` of the timestamp, `" - "`, the formatted message and a
newline, followed immediately by `sys.stdout.flush()`. -/
def log_message (dateStr msg : List Char) : List OutEvent :=
  [OutEvent.print (String.mk (dateStr ++ " - ".data ++ msg ++ ['\n'])), OutEvent.flush]

/-- Modelled from the spec: the "conventional combined-log
request/status/size fragment" `"<METHOD> <path> HTTP/<ver>" <status> <size>`
that the inherited `log_request` (standard-library code absent from this
repository) formats and passes to `log_message`. -/
def requestSummary (method path ver status size : List Char) : List Char :=
  ['"'] ++ method ++ [' '] ++ path ++ [' '] ++ "HTTP/".data ++ ver ++
  ['"', ' '] ++ status ++ [' '] ++ size

/-- Modelled from the spec: "Every handled request produces exactly one log
line on standard output" — the single `log_message` call made for a handled
request, with the timestamp and the request summary. -/
def logRequest (day mon year hh mi ss : Nat)
    (method path ver status size : List Char) : List OutEvent :=
  log_message (logDateTimeString day mon year hh mi ss)
    (requestSummary method path ver status size)

/-- The per-process server state visible to the request handler: the
filesystem and the serving-root path.  Modelled from the spec: "no mutable
shared state across requests" — the handler reads only this configuration. -/
structure ServerState where
  fs : Entry
  rootPath : List String

/-- Modelled from the spec: handling one request — produce the response and
the (unchanged) server state. -/
def handleReq (st : ServerState) (req : Request) : Response × ServerState :=
  (handle st.fs st.rootPath req, st)

/-- Modelled from the spec: the single-threaded accept loop — each accepted
request is processed to completion (through `handleReq`) before the next one
is taken. -/
def serveLoop : ServerState → List Request → List Response × ServerState
  | st, [] => ([], st)
  | st, r :: rs =>
      let p := handleReq st r
      let q := serveLoop p.2 rs
      (p.1 :: q.1, q.2)

/-- The outcome of running the `__main__` block to completion: the events it
performed, the process exit code, and the name of the uncaught exception
(empty when the script ended normally). -/
structure MainResult where
  events : List OutEvent
  exitCode : Nat
  errorName : String
deriving DecidableEq

/-- The `__main__` block of `web_server.py`, embedded from the source.
`os.chdir('/home/user/webapp')` runs first and raises `FileNotFoundError` if
the directory is missing; `HTTPServer(('0.0.0.0', port), MyHandler)` binds
the socket and raises `OSError` if the port is taken (an uncaught Python
exception terminates the process with exit code 1 and a traceback naming the
exception); otherwise the two startup lines are printed and flushed and
`serve_forever` runs until `KeyboardInterrupt`, after which `"\nServer
stopped."` is printed, `server_close()` runs, and the script falls off the
end with exit code 0.  `interrupted` is whether an interrupt ever arrives;
without one `serve_forever` never returns (`none`). -/
def webServerMain (rootExists portFree interrupted : Bool) : Option MainResult :=
  if rootExists = false then
    some { events := [], exitCode := 1, errorName := "FileNotFoundError" }
  else if portFree = false then
    some { events := [OutEvent.chdir "/home/user/webapp"],
           exitCode := 1, errorName := "OSError" }
  else if interrupted then
    some { events := [OutEvent.chdir "/home/user/webapp",
                      OutEvent.bind "0.0.0.0" 8000,
                      OutEvent.print "Server running on port 8000",
                      OutEvent.print "Serving directory: /home/user/webapp",
                      OutEvent.flush,
                      OutEvent.serveForever,
                      OutEvent.print "\nServer stopped.",
                      OutEvent.serverClose],
           exitCode := 0, errorName := "" }
  else none

/-- Every listed name occurs verbatim inside the generated list items. -/
lemma strBytes_infix_listingItems {n : String} {names : List String} (h : n ∈ names) :
    ∃ s t, listingItems names = s ++ strBytes n ++ t := by
  induction names with
  | nil => cases h
  | cons x xs ih =>
      rcases List.mem_cons.mp h with rfl | hxs
      · exact ⟨strBytes "<li>", strBytes "</li>" ++ listingItems xs,
          by simp [listingItems, List.append_assoc]⟩
      · obtain ⟨s, t, hst⟩ := ih hxs
        exact ⟨strBytes "<li>" ++ strBytes x ++ strBytes "</li>" ++ s, t,
          by simp [listingItems, hst, List.append_assoc]⟩

/-- Every listed name occurs verbatim inside the generated listing body. -/
lemma strBytes_infix_listingBytes {n : String} {names : List String} (h : n ∈ names) :
    ∃ s t, listingBytes names = s ++ strBytes n ++ t := by
  obtain ⟨s, t, hst⟩ := strBytes_infix_listingItems h
  exact ⟨strBytes "<html><body><ul>" ++ s, t ++ strBytes "</ul></body></html>",
    by simp [listingBytes, hst, List.append_assoc]⟩

/-- C1: a request whose path escapes the serving root via traversal
sequences is answered with status 403 and a fixed error body, and the
response is the same whatever the rest of the filesystem holds, so no
content from outside the root is ever returned. -/
theorem traversal_rejected (fs fs2 : Entry) (rootPath : List String) (req : Request)
    (h : resolve req.path = none) :
    (handle fs rootPath req).status = 403 ∧
    (handle fs rootPath req).body = strBytes "403 Forbidden" ∧
    handle fs2 rootPath req = handle fs rootPath req := by
  simp [handle, h]

/-- Witness for C1 at the request path `../../etc/passwd`. -/
theorem traversal_rejected_check :
    (handle (Entry.dir []) [] ⟨"GET", ["..", "..", "etc", "passwd"], "1.1"⟩).status = 403 ∧
    (handle (Entry.dir []) [] ⟨"GET", ["..", "..", "etc", "passwd"], "1.1"⟩).body =
      strBytes "403 Forbidden" ∧
    handle (Entry.file [7]) [] ⟨"GET", ["..", "..", "etc", "passwd"], "1.1"⟩ =
      handle (Entry.dir []) [] ⟨"GET", ["..", "..", "etc", "passwd"], "1.1"⟩ :=
  traversal_rejected (Entry.dir []) (Entry.file [7]) []
    ⟨"GET", ["..", "..", "etc", "passwd"], "1.1"⟩ (by decide)

/-- C2: a GET request resolving to an existing regular file under the root
is answered with status 200 and exactly the file's on-disk bytes. -/
theorem file_served (fs root : Entry) (rootPath rel : List String) (req : Request)
    (bs : List Nat)
    (_hm : req.method = "GET")
    (h1 : resolve req.path = some rel)
    (h2 : fs.lookup rootPath = some root)
    (h3 : root.lookup rel = some (Entry.file bs)) :
    (handle fs rootPath req).status = 200 ∧ (handle fs rootPath req).body = bs := by
  simp [handle, h1, h2, h3]

/-- Witness for C2: serving `/about.html` out of a two-file root. -/
theorem file_served_check :
    (handle (Entry.dir [("index.html", Entry.file (strBytes "Hello")),
                        ("about.html", Entry.file (strBytes "About"))])
        [] ⟨"GET", ["", "about.html"], "1.1"⟩).status = 200 ∧
    (handle (Entry.dir [("index.html", Entry.file (strBytes "Hello")),
                        ("about.html", Entry.file (strBytes "About"))])
        [] ⟨"GET", ["", "about.html"], "1.1"⟩).body = strBytes "About" :=
  file_served (Entry.dir [("index.html", Entry.file (strBytes "Hello")),
                          ("about.html", Entry.file (strBytes "About"))])
    (Entry.dir [("index.html", Entry.file (strBytes "Hello")),
                ("about.html", Entry.file (strBytes "About"))])
    [] ["about.html"] ⟨"GET", ["", "about.html"], "1.1"⟩ (strBytes "About")
    rfl (by decide) rfl rfl

/-- C3: a request resolving to a directory under the root is answered with
that directory's `index.html` contents (status 200) when such a file is
present, and otherwise with a status-200 generated listing in which every
direct child's name occurs. -/
theorem directory_served (fs root : Entry) (rootPath rel : List String) (req : Request)
    (cs : List (String × Entry))
    (h1 : resolve req.path = some rel)
    (h2 : fs.lookup rootPath = some root)
    (h3 : root.lookup rel = some (Entry.dir cs)) :
    (∀ bs, cs.lookup "index.html" = some (Entry.file bs) →
      handle fs rootPath req = { status := 200, body := bs }) ∧
    (cs.lookup "index.html" = none →
      (handle fs rootPath req).status = 200 ∧
      ∀ n ∈ cs.map Prod.fst,
        ∃ s t, (handle fs rootPath req).body = s ++ strBytes n ++ t) := by
  constructor
  · intro bs hix
    simp [handle, h1, h2, h3, hix]
  · intro hix
    constructor
    · simp [handle, h1, h2, h3, hix]
    · intro n hn
      have hb : (handle fs rootPath req).body = listingBytes (cs.map Prod.fst) := by
        simp [handle, h1, h2, h3, hix]
      rw [hb]
      exact strBytes_infix_listingBytes hn

/-- Witness for C3: a directory with `index.html` served as its index, and a
directory without one served as a listing naming both children. -/
theorem directory_served_check :
    handle (Entry.dir [("index.html", Entry.file (strBytes "Hello")),
                       ("about.html", Entry.file (strBytes "About"))])
        [] ⟨"GET", ["", ""], "1.1"⟩ =
      { status := 200, body := strBytes "Hello" } ∧
    ((handle (Entry.dir [("a.html", Entry.file []), ("b.css", Entry.file [])])
        [] ⟨"GET", ["", ""], "1.1"⟩).status = 200 ∧
      ∃ s t, (handle (Entry.dir [("a.html", Entry.file []), ("b.css", Entry.file [])])
        [] ⟨"GET", ["", ""], "1.1"⟩).body = s ++ strBytes "a.html" ++ t) := by
  constructor
  · exact (directory_served
        (Entry.dir [("index.html", Entry.file (strBytes "Hello")),
                    ("about.html", Entry.file (strBytes "About"))])
        (Entry.dir [("index.html", Entry.file (strBytes "Hello")),
                    ("about.html", Entry.file (strBytes "About"))])
        [] [] ⟨"GET", ["", ""], "1.1"⟩
        [("index.html", Entry.file (strBytes "Hello")),
         ("about.html", Entry.file (strBytes "About"))]
        (by decide) rfl rfl).1 (strBytes "Hello") rfl
  · have h := (directory_served
        (Entry.dir [("a.html", Entry.file []), ("b.css", Entry.file [])])
        (Entry.dir [("a.html", Entry.file []), ("b.css", Entry.file [])])
        [] [] ⟨"GET", ["", ""], "1.1"⟩
        [("a.html", Entry.file []), ("b.css", Entry.file [])]
        (by decide) rfl rfl).2 rfl
    exact ⟨h.1, h.2 "a.html" (by decide)⟩

/-- C10 counterexample: a GET request for an existing directory whose path
has no trailing slash is answered 200 with the directory content directly,
not with a 301 redirect. -/
theorem dir_without_slash_not_redirected :
    (["", "sub"] : List String).getLast? ≠ some "" ∧
    (handle (Entry.dir [("sub", Entry.dir [("index.html", Entry.file (strBytes "Hi"))])])
        [] ⟨"GET", ["", "sub"], "1.1"⟩).status = 200 ∧
    (handle (Entry.dir [("sub", Entry.dir [("index.html", Entry.file (strBytes "Hi"))])])
        [] ⟨"GET", ["", "sub"], "1.1"⟩).status ≠ 301 := by
  refine ⟨by decide, rfl, by decide⟩

/-- C10 amended: a GET request resolving to an existing directory under the
root is served directly — index.html contents or generated listing — with
status 200 and never a 301 redirect, whether or not the path ends with a
slash. -/
theorem dir_served_directly (fs root : Entry) (rootPath rel : List String) (req : Request)
    (cs : List (String × Entry))
    (_hm : req.method = "GET")
    (h1 : resolve req.path = some rel)
    (h2 : fs.lookup rootPath = some root)
    (h3 : root.lookup rel = some (Entry.dir cs)) :
    (handle fs rootPath req).status = 200 ∧ (handle fs rootPath req).status ≠ 301 := by
  have h200 : (handle fs rootPath req).status = 200 := by
    rcases hix : cs.lookup "index.html" with _ | e
    · simp [handle, h1, h2, h3, hix]
    · cases e <;> simp [handle, h1, h2, h3, hix]
  exact ⟨h200, by rw [h200]; decide⟩

/-- Witness for C10's amended theorem at a slash-less directory path. -/
theorem dir_served_directly_check :
    (handle (Entry.dir [("sub", Entry.dir [("x.txt", Entry.file [1])])])
        [] ⟨"GET", ["", "sub"], "1.1"⟩).status = 200 ∧
    (handle (Entry.dir [("sub", Entry.dir [("x.txt", Entry.file [1])])])
        [] ⟨"GET", ["", "sub"], "1.1"⟩).status ≠ 301 :=
  dir_served_directly (Entry.dir [("sub", Entry.dir [("x.txt", Entry.file [1])])])
    (Entry.dir [("sub", Entry.dir [("x.txt", Entry.file [1])])])
    [] ["sub"] ⟨"GET", ["", "sub"], "1.1"⟩ [("x.txt", Entry.file [1])]
    rfl (by decide) rfl rfl

/-- The twelve month abbreviations as character lists. -/
def monthNamesData : List (List Char) :=
  ["Jan".data, "Feb".data, "Mar".data, "Apr".data, "May".data, "Jun".data,
   "Jul".data, "Aug".data, "Sep".data, "Oct".data, "Nov".data, "Dec".data]

lemma digitChar_ne_newline (n : Nat) : digitChar n ≠ '\n' := by
  unfold digitChar
  split <;> decide

lemma newline_not_mem_pad2 (n : Nat) : '\n' ∉ pad2 n := by
  simp only [pad2, List.mem_cons, List.not_mem_nil, or_false, not_or]
  exact ⟨Ne.symm (digitChar_ne_newline _), Ne.symm (digitChar_ne_newline _)⟩

lemma newline_not_mem_pad4 (n : Nat) : '\n' ∉ pad4 n := by
  simp only [pad4, List.mem_cons, List.not_mem_nil, or_false, not_or]
  exact ⟨Ne.symm (digitChar_ne_newline _), Ne.symm (digitChar_ne_newline _),
    Ne.symm (digitChar_ne_newline _), Ne.symm (digitChar_ne_newline _)⟩

lemma monthName_mem (m : Nat) : monthName m ∈ monthNamesData := by
  unfold monthName
  rcases Nat.lt_or_ge (m - 1) 12 with h | h
  · have hd : ∀ k, k < 12 →
        ((["Jan", "Feb", "Mar", "Apr", "May", "Jun",
           "Jul", "Aug", "Sep", "Oct", "Nov", "Dec"].getD k "Jan").data ∈ monthNamesData) := by
      decide
    exact hd (m - 1) h
  · rw [List.getD_eq_default _ _ (by simpa using h)]
    decide

lemma newline_not_mem_monthName (m : Nat) : '\n' ∉ monthName m := by
  have hd : ∀ x ∈ monthNamesData, '\n' ∉ x := by decide
  exact hd _ (monthName_mem m)

lemma monthName_length (m : Nat) : (monthName m).length = 3 := by
  have hd : ∀ x ∈ monthNamesData, x.length = 3 := by decide
  exact hd _ (monthName_mem m)

lemma newline_not_mem_logDateTimeString (day mon year hh mi ss : Nat) :
    '\n' ∉ logDateTimeString day mon year hh mi ss := by
  have e1 : ('\n' ∈ (['/'] : List Char)) = False := by decide
  have e2 : ('\n' ∈ ([' '] : List Char)) = False := by decide
  have e3 : ('\n' ∈ ([':'] : List Char)) = False := by decide
  simp [logDateTimeString, List.mem_append, e1, e2, e3,
    newline_not_mem_pad2, newline_not_mem_pad4, newline_not_mem_monthName]

lemma logDateTimeString_length (day mon year hh mi ss : Nat) :
    (logDateTimeString day mon year hh mi ss).length = 20 := by
  simp [logDateTimeString, pad2, pad4, monthName_length]

lemma newline_not_mem_requestSummary {method path ver status size : List Char}
    (hm : '\n' ∉ method) (hp : '\n' ∉ path) (hv : '\n' ∉ ver)
    (hs : '\n' ∉ status) (hz : '\n' ∉ size) :
    '\n' ∉ requestSummary method path ver status size := by
  have e1 : ('\n' ∈ (['"'] : List Char)) = False := by decide
  have e2 : ('\n' ∈ ([' '] : List Char)) = False := by decide
  have e3 : ('\n' ∈ "HTTP/".data) = False := by decide
  have e4 : ('\n' ∈ (['"', ' '] : List Char)) = False := by decide
  simp [requestSummary, List.mem_append, e1, e2, e3, e4, hm, hp, hv, hs, hz]

lemma getLast?_snoc {α : Type} (l : List α) (a : α) : (l ++ [a]).getLast? = some a := by
  rw [List.getLast?_append_cons]
  rfl

/-- C4: handling a request emits exactly one write to standard output
followed immediately by a flush; the written line is the timestamp, `" - "`,
the quoted request summary with status and size, and a terminating newline —
its only newline — and the timestamp part is the 20-character
`day/Mon/year HH:MM:SS` form. -/
theorem request_logged_once (day mon year hh mi ss : Nat)
    (method path ver status size : List Char)
    (hm : '\n' ∉ method) (hp : '\n' ∉ path) (hv : '\n' ∉ ver)
    (hs : '\n' ∉ status) (hz : '\n' ∉ size) :
    ∃ line : List Char,
      logRequest day mon year hh mi ss method path ver status size =
        [OutEvent.print (String.mk line), OutEvent.flush] ∧
      line = logDateTimeString day mon year hh mi ss ++ " - ".data ++
        requestSummary method path ver status size ++ ['\n'] ∧
      line.count '\n' = 1 ∧
      line.getLast? = some '\n' ∧
      (logDateTimeString day mon year hh mi ss).length = 20 := by
  refine ⟨_, rfl, rfl, ?_, ?_, logDateTimeString_length day mon year hh mi ss⟩
  · rw [List.count_append, List.count_append, List.count_append]
    rw [List.count_eq_zero.mpr (newline_not_mem_logDateTimeString day mon year hh mi ss)]
    rw [List.count_eq_zero.mpr (newline_not_mem_requestSummary hm hp hv hs hz)]
    decide
  · rw [show logDateTimeString day mon year hh mi ss ++ " - ".data ++
        requestSummary method path ver status size ++ ['\n'] =
        (logDateTimeString day mon year hh mi ss ++ " - ".data ++
          requestSummary method path ver status size) ++ ['\n'] by
      simp [List.append_assoc]]
    exact getLast?_snoc _ _

/-- Witness for C4 at the spec's example timestamp and a GET request line. -/
theorem request_logged_once_check :
    ∃ line : List Char,
      logRequest 25 12 2023 14 30 0 "GET".data "/index.html".data "1.1".data
          "200".data "-".data =
        [OutEvent.print (String.mk line), OutEvent.flush] ∧
      line = logDateTimeString 25 12 2023 14 30 0 ++ " - ".data ++
        requestSummary "GET".data "/index.html".data "1.1".data "200".data "-".data ++
        ['\n'] ∧
      line.count '\n' = 1 ∧
      line.getLast? = some '\n' ∧
      (logDateTimeString 25 12 2023 14 30 0).length = 20 :=
  request_logged_once 25 12 2023 14 30 0 "GET".data "/index.html".data "1.1".data
    "200".data "-".data (by decide) (by decide) (by decide) (by decide) (by decide)

/-- The serve loop is the pointwise handling of the request stream and
leaves the server state untouched. -/
lemma serveLoop_eq (st : ServerState) (reqs : List Request) :
    serveLoop st reqs = (reqs.map (handle st.fs st.rootPath), st) := by
  induction reqs with
  | nil => rfl
  | cons r rs ih => simp [serveLoop, handleReq, ih]

/-- C7: handling requests never mutates the server state, and two identical
GET requests anywhere in the request stream receive identical responses
(same status and same bytes). -/
theorem repeated_requests_same_response (st : ServerState) (reqs : List Request)
    (i j : Nat) (h : reqs[i]? = reqs[j]?) :
    (serveLoop st reqs).2 = st ∧
    (serveLoop st reqs).1[i]? = (serveLoop st reqs).1[j]? := by
  rw [serveLoop_eq]
  refine ⟨rfl, ?_⟩
  simp [List.getElem?_map, h]

/-- Witness for C7: the same request at positions 0 and 2 of a stream. -/
theorem repeated_requests_same_response_check :
    (serveLoop ⟨Entry.dir [("a", Entry.file [1])], []⟩
      [⟨"GET", ["", "a"], "1.1"⟩, ⟨"GET", ["", "b"], "1.1"⟩,
       ⟨"GET", ["", "a"], "1.1"⟩]).2 = ⟨Entry.dir [("a", Entry.file [1])], []⟩ ∧
    (serveLoop ⟨Entry.dir [("a", Entry.file [1])], []⟩
      [⟨"GET", ["", "a"], "1.1"⟩, ⟨"GET", ["", "b"], "1.1"⟩,
       ⟨"GET", ["", "a"], "1.1"⟩]).1[0]? =
    (serveLoop ⟨Entry.dir [("a", Entry.file [1])], []⟩
      [⟨"GET", ["", "a"], "1.1"⟩, ⟨"GET", ["", "b"], "1.1"⟩,
       ⟨"GET", ["", "a"], "1.1"⟩]).1[2]? :=
  repeated_requests_same_response ⟨Entry.dir [("a", Entry.file [1])], []⟩
    [⟨"GET", ["", "a"], "1.1"⟩, ⟨"GET", ["", "b"], "1.1"⟩, ⟨"GET", ["", "a"], "1.1"⟩]
    0 2 (by decide)

/-- C8: the accept loop is sequential: it produces exactly one response per
accepted request, the i-th response is exactly the complete handling of the
i-th accepted request (no reordering, no priority), and the state passed on
to later requests is unchanged. -/
theorem requests_served_in_order (st : ServerState) (reqs : List Request) (i : Nat) :
    (serveLoop st reqs).1.length = reqs.length ∧
    (serveLoop st reqs).1[i]? = (reqs[i]?).map (handle st.fs st.rootPath) ∧
    (serveLoop st reqs).2 = st := by
  rw [serveLoop_eq]
  exact ⟨by simp, by simp [List.getElem?_map], rfl⟩

/-- C5: when the serving root is missing or the port is already bound,
startup terminates with a non-zero exit code and a named error, binds
nothing further, and makes no second attempt. -/
theorem startup_failure_exits_nonzero (rootExists portFree interrupted : Bool)
    (h : rootExists = false ∨ portFree = false) :
    ∃ r, webServerMain rootExists portFree interrupted = some r ∧
      r.exitCode ≠ 0 ∧ r.errorName ≠ "" ∧
      r.events.count (OutEvent.bind "0.0.0.0" 8000) = 0 ∧
      r.events.count (OutEvent.chdir "/home/user/webapp") ≤ 1 := by
  cases rootExists with
  | false =>
      exact ⟨⟨[], 1, "FileNotFoundError"⟩, by simp [webServerMain], by decide, by decide,
        by decide, by decide⟩
  | true =>
      rcases h with h | h
      · cases h
      · subst h
        exact ⟨⟨[OutEvent.chdir "/home/user/webapp"], 1, "OSError"⟩,
          by simp [webServerMain], by decide, by decide, by decide, by decide⟩

/-- Witness for C5 at a bound port. -/
theorem startup_failure_exits_nonzero_check :
    ∃ r, webServerMain true false false = some r ∧
      r.exitCode ≠ 0 ∧ r.errorName ≠ "" ∧
      r.events.count (OutEvent.bind "0.0.0.0" 8000) = 0 ∧
      r.events.count (OutEvent.chdir "/home/user/webapp") ≤ 1 :=
  startup_failure_exits_nonzero true false false (Or.inr rfl)

/-- C6: an interrupt while serving ends the accept loop, prints the
"Server stopped." message, closes the listening socket as the final action
(so no further connection is accepted), and the process exits with code 0
and no error. -/
theorem interrupt_clean_shutdown (rootExists portFree interrupted : Bool)
    (h1 : rootExists = true) (h2 : portFree = true) (h3 : interrupted = true) :
    ∃ r, webServerMain rootExists portFree interrupted = some r ∧
      r.exitCode = 0 ∧ r.errorName = "" ∧
      OutEvent.print "\nServer stopped." ∈ r.events ∧
      OutEvent.serverClose ∈ r.events ∧
      r.events.getLast? = some OutEvent.serverClose ∧
      r.events.count OutEvent.serveForever = 1 := by
  subst h1; subst h2; subst h3
  refine ⟨_, rfl, rfl, rfl, ?_, ?_, ?_, ?_⟩ <;> decide

/-- Witness for C6 at a successful startup followed by an interrupt. -/
theorem interrupt_clean_shutdown_check :
    ∃ r, webServerMain true true true = some r ∧
      r.exitCode = 0 ∧ r.errorName = "" ∧
      OutEvent.print "\nServer stopped." ∈ r.events ∧
      OutEvent.serverClose ∈ r.events ∧
      r.events.getLast? = some OutEvent.serverClose ∧
      r.events.count OutEvent.serveForever = 1 :=
  interrupt_clean_shutdown true true true rfl rfl rfl

/-- C9: a missing serving root terminates the process before any socket is
bound — no bind event ever occurs — and in every run the change of working
directory strictly precedes the socket bind. -/
theorem chdir_strictly_before_bind (rootExists portFree interrupted : Bool)
    (r : MainResult)
    (hr : webServerMain rootExists portFree interrupted = some r) :
    (rootExists = false → r.exitCode ≠ 0 ∧ ∀ a p, OutEvent.bind a p ∉ r.events) ∧
    (OutEvent.bind "0.0.0.0" 8000 ∈ r.events →
      OutEvent.chdir "/home/user/webapp" ∈ r.events ∧
      r.events.indexOf (OutEvent.chdir "/home/user/webapp") <
        r.events.indexOf (OutEvent.bind "0.0.0.0" 8000)) := by
  cases rootExists with
  | false =>
      simp [webServerMain] at hr
      subst hr
      exact ⟨fun _ => ⟨by decide, fun a p hp => List.not_mem_nil _ hp⟩,
        fun hb => absurd hb (by decide)⟩
  | true =>
      cases portFree with
      | false =>
          simp [webServerMain] at hr
          subst hr
          exact ⟨fun hfalse => Bool.noConfusion hfalse, fun hb => absurd hb (by decide)⟩
      | true =>
          cases interrupted with
          | false => simp [webServerMain] at hr
          | true =>
              simp [webServerMain] at hr
              subst hr
              exact ⟨fun hfalse => Bool.noConfusion hfalse, fun _ => ⟨by decide, by decide⟩⟩

/-- Witness for C9: the failing-startup run has no bind event, and the
successful run changes directory before binding. -/
theorem chdir_strictly_before_bind_check :
    ((false = false → (⟨[], 1, "FileNotFoundError"⟩ : MainResult).exitCode ≠ 0 ∧
        ∀ a p, OutEvent.bind a p ∉ (⟨[], 1, "FileNotFoundError"⟩ : MainResult).events) ∧
     (OutEvent.bind "0.0.0.0" 8000 ∈ (⟨[], 1, "FileNotFoundError"⟩ : MainResult).events →
        OutEvent.chdir "/home/user/webapp" ∈
          (⟨[], 1, "FileNotFoundError"⟩ : MainResult).events ∧
        (⟨[], 1, "FileNotFoundError"⟩ : MainResult).events.indexOf
            (OutEvent.chdir "/home/user/webapp") <
          (⟨[], 1, "FileNotFoundError"⟩ : MainResult).events.indexOf
            (OutEvent.bind "0.0.0.0" 8000))) :=
  chdir_strictly_before_bind false true true ⟨[], 1, "FileNotFoundError"⟩ (by simp [webServerMain])

end WebServer
